import Mathlib

/-!
Verification of the import-to-lazy-async-import transform (src/index.ts).

The development shallowly embeds the transform's data model and functions:
TypeScript import declarations, the component classifier `isComponentType`
backed by an abstract symbol/type oracle, the declaration normalizer
`getFunction`, the residual-import filter `removeImportNames`, the
per-statement rewrite `visitNode`, and the module-level gate
`visitSourceFile`.  Identifiers are plain strings (the model identifies a
TypeScript identifier's `text` and `escapedText`).  Places where the
TypeScript source would throw a runtime `TypeError` (member access through an
`undefined` produced by an unchecked cast to `ts.NamedImports`) are modelled
as `Option.none`, so fallible paths return `Option` values.
-/

namespace LazyImport

/-- A named import specifier, `Foo` or `Foo as Bar` (`ts.ImportSpecifier`):
`propertyName` is the exported name when the binding is aliased, `name` the
local binding name. -/
structure ImportSpecifier where
  propertyName : Option String
  name : String
deriving DecidableEq

/-- The `namedBindings` of an import clause: `{ a, b as c }` or `* as ns`. -/
inductive NamedBindings where
  | namedImports (elements : List ImportSpecifier)
  | namespaceImport (name : String)
deriving DecidableEq

/-- An import clause: optional default binding name plus optional named
bindings (`ts.ImportClause`). -/
structure ImportClause where
  name : Option String
  namedBindings : Option NamedBindings
deriving DecidableEq

/-- An import declaration; the module specifier is its string literal text
(`ts.ImportDeclaration`).  Decorators and modifiers carry no information the
transform reads, so they are not modelled. -/
structure ImportDeclaration where
  importClause : Option ImportClause
  moduleSpecifier : String
deriving DecidableEq

/-- A type symbol as the classifier reads it: its `escapedName` and the
`escapedName` of its parent symbol, when it has one. -/
structure TypeSymbol where
  escapedName : String
  parent : Option String
deriving DecidableEq

/-- One call signature of a resolved type: the symbol of its return type,
when the return type has a symbol. -/
structure CallSignature where
  returnTypeSymbol : Option TypeSymbol
deriving DecidableEq

/-- Heritage clause token: `extends` or `implements`. -/
inductive HeritageToken where
  | extendsKeyword
  | implementsKeyword
deriving DecidableEq

/-- One type of a heritage clause.  `memberAccess obj member` stands for an
`ExpressionWithTypeArguments` whose expression is the property access
`obj.member` with `obj` a plain identifier; `otherType` stands for every
other shape (the classifier only ever distinguishes these two cases). -/
inductive HeritageType where
  | memberAccess (obj : String) (member : String)
  | otherType (tag : Nat)
deriving DecidableEq

/-- A heritage clause: its token and its types. -/
structure HeritageClause where
  token : HeritageToken
  types : List HeritageType
deriving DecidableEq

/-- An expression as `getFunction` inspects initializers and default-export
expressions: an arrow function or function expression (keeping the parameter
count, the only datum the classifier reads off the function node), or any
other expression. -/
inductive DeclExpr where
  | arrowFunction (paramCount : Nat)
  | functionExpression (paramCount : Nat)
  | otherExpr (tag : Nat)
deriving DecidableEq

/-- One declarator of a variable declaration list: its optional initializer. -/
structure VariableDeclarator where
  initializer : Option DeclExpr
deriving DecidableEq

/-- A declaration as the oracle resolves it for an exported symbol
(`symbol.valueDeclaration`): the shapes `isComponentType` and `getFunction`
distinguish. -/
inductive Decl where
  | classDeclaration (heritageClauses : Option (List HeritageClause))
  | functionDeclaration (paramCount : Nat)
  | exportAssignment (expression : DeclExpr)
  | variableStatement (declarations : List VariableDeclarator)
  | variableDeclaration (declarator : VariableDeclarator)
  | otherDecl (tag : Nat)
deriving DecidableEq

/-- The function value `getFunction` returns, keeping what its caller reads:
`parameters.length` of the function node. -/
structure FunctionValue where
  paramCount : Nat
deriving DecidableEq

/-- An exported symbol of a module, as the oracle presents it: its exported
name, its value declaration (none models a symbol with no value
declaration), and the call signatures of the checker's type for the symbol
at that declaration (`getTypeOfSymbolAtLocation(...).getCallSignatures()`). -/
structure ExportedSymbol where
  name : String
  valueDeclaration : Option Decl
  callSignatures : List CallSignature
deriving DecidableEq

/-- The symbol/type oracle: `getSymbolAtLocation` on a module specifier
followed by `getExportsOfModule`, collapsed into one lookup.  `none` models
an unresolvable module specifier (no symbol at the specifier). -/
structure TypeChecker where
  getExportsOfModule : String → Option (List ExportedSymbol)

/-- Output expressions, covering the syntax the rewrite synthesizes
(`ts.createCall`, `ts.createPropertyAccess`, `ts.createArrowFunction`,
`ts.createObjectLiteral`, `ts.createParen`, identifiers and string
literals); `importKeyword` is the callee of a dynamic `import(...)` call. -/
inductive Expression where
  | identifier (name : String)
  | stringLiteral (value : String)
  | importKeyword
  | propertyAccess (expression : Expression) (name : String)
  | call (callee : Expression) (arguments : List Expression)
  | arrowFunction (parameters : List String) (body : Expression)
  | paren (expression : Expression)
  | objectLiteral (properties : List (String × Expression))

/-- A top-level statement of a module: an import declaration, a variable
statement (the rewrite emits `const` declarations, one `(name, initializer)`
pair per declarator), or any other statement, opaque to the transform. -/
inductive Statement where
  | importDeclStmt (decl : ImportDeclaration)
  | variableStmt (isConst : Bool) (declarations : List (String × Expression))
  | otherStmt (tag : Nat)

/-- A source file: its file name and its top-level statements. -/
structure SourceFile where
  fileName : String
  statements : List Statement

/-- The transform's options (src/index.ts:3-40).  The wrapper expression is a
fixed expression value; `createImportDeclaration` receives the current file
name; `shouldRewrite` receives the import specifier and the current file
name. -/
structure Options where
  onlyRewriteDefaultExports : Bool
  onlyRewriteIfImportCanBeRemoved : Bool
  createComponentWrapperExpression : Expression
  createImportDeclaration : String → Option ImportDeclaration
  shouldRewrite : String → String → Bool

/-- Mirrors `defaultOptions` (src/index.ts:3-40): wrapper `React.lazy`, no
injected import, always rewrite. -/
def defaultOptions : Options where
  onlyRewriteDefaultExports := false
  onlyRewriteIfImportCanBeRemoved := false
  createComponentWrapperExpression :=
    .propertyAccess (.identifier "React") "lazy"
  createImportDeclaration := fun _ => none
  shouldRewrite := fun _ _ => true

/-- The function value an initializer denotes, when it is an arrow function
or a function expression (the shared tail of `getFunction`'s variable
branches, src/index.ts:209-214). -/
def initializerFunction (declarator : VariableDeclarator) : Option FunctionValue :=
  match declarator.initializer with
  | some (.arrowFunction p) => some ⟨p⟩
  | some (.functionExpression p) => some ⟨p⟩
  | _ => none

/-- Mirrors `getFunction` (src/index.ts:195-217): normalizes a declaration to
the function value it denotes.  A function declaration is itself one; an
export assignment is unwrapped when its expression is a function expression
or arrow function; a variable statement is unwrapped through
`declarationList.declarations[0]`, its first declarator; a lone variable
declaration through its own initializer.  Everything else yields none. -/
def getFunction : Decl → Option FunctionValue
  | .functionDeclaration p => some ⟨p⟩
  | .exportAssignment e =>
    match e with
    | .functionExpression p => some ⟨p⟩
    | .arrowFunction p => some ⟨p⟩
    | .otherExpr _ => none
  | .variableStatement declarations =>
    match declarations.head? with
    | some declarator => initializerFunction declarator
    | none => none
  | .variableDeclaration declarator => initializerFunction declarator
  | _ => none

/-- Mirrors `isComponentType` (src/index.ts:143-193).  Resolves the module's
exports, finds the symbol exported under `identifier`, and checks its value
declaration: a class declaration with heritage clauses qualifies when its
`extends` clause holds a type whose expression is the property access
`React.Component`; any other declaration qualifies when `getFunction` finds
a function value with one or two parameters and the first call signature of
the symbol's type returns a type whose symbol is named `Element` with parent
symbol named `JSX`.  Every failed lookup yields false. -/
def isComponentType (identifier : String) (importDecl : ImportDeclaration)
    (typeChecker : TypeChecker) : Bool :=
  match typeChecker.getExportsOfModule importDecl.moduleSpecifier with
  | none => false
  | some exports =>
    match exports.find? (fun e => e.name == identifier) with
    | none => false
    | some exportedSymbol =>
      match exportedSymbol.valueDeclaration with
      | none => false
      | some valueDecl =>
        match valueDecl with
        | .classDeclaration (some heritageClauses) =>
          match heritageClauses.find? (fun h => h.token == .extendsKeyword) with
          | some baseClass =>
            baseClass.types.any (fun t =>
              match t with
              | .memberAccess obj member => member == "Component" && obj == "React"
              | .otherType _ => false)
          | none => false
        | _ =>
          match getFunction valueDecl with
          | none => false
          | some func =>
            match exportedSymbol.callSignatures with
            | [] => false
            | callSignature :: _ =>
              match callSignature.returnTypeSymbol with
              | none => false
              | some returnType =>
                (func.paramCount == 1 || func.paramCount == 2) &&
                returnType.escapedName == "Element" &&
                (match returnType.parent with
                 | some parentName => parentName == "JSX"
                 | none => false)

/-- Mirrors `getImportedReactComponents` (src/index.ts:119-141): collects the
local names the classifier accepts — the default binding name when the
exported `default` classifies, then, unless `onlyRewriteDefaultExports` is
set, each named binding's local name whose exported name
(`propertyName || name`) classifies. -/
def getImportedReactComponents (importDecl : ImportDeclaration)
    (typeChecker : TypeChecker) (options : Options) : List String :=
  match importDecl.importClause with
  | none => []
  | some clause =>
    (match clause.name with
     | some defaultName =>
       if isComponentType "default" importDecl typeChecker then [defaultName] else []
     | none => []) ++
    (if !options.onlyRewriteDefaultExports then
       match clause.namedBindings with
       | some (.namedImports elements) =>
         elements.filterMap (fun element =>
           if isComponentType (element.propertyName.getD element.name) importDecl typeChecker
           then some element.name else none)
       | _ => []
     else [])

/-- The dynamic `import(moduleSpecifier)` call expression the rewrite
synthesizes (src/index.ts:238-242). -/
def importCallOf (moduleSpecifier : String) : Expression :=
  .call .importKeyword [.stringLiteral moduleSpecifier]

/-- The lazy `const` declaration for one classified component name `c`
(src/index.ts:237-288): `const c = <wrapper>(() => <loader>)`.  The loader is
the bare dynamic import when `c` is the statement's default import name;
otherwise the element whose local name is `c` is looked up in the named
bindings and a `.then(m => ({ default: m.<propertyName || name> }))`
continuation is appended (when the lookup finds no element the loader stays
the bare dynamic import).  `none` models the TypeError the source raises
when `c` differs from the default name and the named bindings are absent or
a namespace import: the source reads `.elements` off an unchecked cast to
`ts.NamedImports`. -/
def lazyStatement (options : Options) (moduleSpecifier : String)
    (defaultImportName : Option String) (namedBindings : Option NamedBindings)
    (c : String) : Option Statement :=
  let importCall := importCallOf moduleSpecifier
  let arrowBody : Option Expression :=
    if defaultImportName ≠ some c then
      match namedBindings with
      | some (.namedImports elements) =>
        match elements.find? (fun e => e.name == c) with
        | some element =>
          some (.call (.propertyAccess importCall "then")
            [.arrowFunction ["m"]
              (.paren (.objectLiteral
                [("default", .propertyAccess (.identifier "m")
                  (element.propertyName.getD element.name))]))])
        | none => some importCall
      | _ => none
    else some importCall
  match arrowBody with
  | none => none
  | some body =>
    some (.variableStmt true [(c,
      .call options.createComponentWrapperExpression
        [.arrowFunction [] body])])

/-- Mirrors `removeImportNames` (src/index.ts:324-331): keeps the
named import specifiers whose exported name (`propertyName || name`) is not in
`importNamesToRemove`.  `none` models the TypeError raised when the bindings
are a namespace import: the source filters `.elements` off an unchecked
cast to `ts.NamedImports`. -/
def removeImportNames (namedBindings : NamedBindings)
    (importNamesToRemove : List String) : Option NamedBindings :=
  match namedBindings with
  | .namedImports elements =>
    some (.namedImports (elements.filter (fun e =>
      !importNamesToRemove.contains (e.propertyName.getD e.name))))
  | .namespaceImport _ => none

/-- Mirrors `visitNode` (src/index.ts:219-322) at statement level.  An import
declaration among the selected candidates, with an import clause, is
rewritten: the `shouldRewrite` hook is consulted first; the classified
component names are computed; when there are any, the lazy declarations are
built (prefixed by the configured injected import, when present), the
`importedNames` count is compared against the classified count to choose
between full removal, a partial rewrite with a residual import, and the
bail-out under `onlyRewriteIfImportCanBeRemoved`.  Every other statement
passes through as itself.  `importedNames` counts the default binding only
when its name is among the classified names, exactly as the source's
condition does, and reads `elements.length` off the named bindings through
an unchecked cast — `none` models the TypeError when they are a
namespace import. -/
def visitNode (node : Statement) (potentialComponentImports : List ImportDeclaration)
    (sourceFile : SourceFile) (typeChecker : TypeChecker) (options : Options) :
    Option (List Statement) :=
  match node with
  | .importDeclStmt d =>
    match d.importClause with
    | some clause =>
      if potentialComponentImports.contains d then
        if !options.shouldRewrite d.moduleSpecifier sourceFile.fileName then
          some [Statement.importDeclStmt d]
        else
          let defaultImportName := clause.name
          let componentNames := getImportedReactComponents d typeChecker options
          if componentNames.length != 0 then
            let defaultName : Option String :=
              match defaultImportName with
              | some n => if componentNames.contains n then none else some n
              | none => none
            match componentNames.mapM
              (lazyStatement options d.moduleSpecifier defaultImportName clause.namedBindings) with
            | none => none
            | some lazyStatements =>
              let additionalStatements : List Statement :=
                match options.createImportDeclaration sourceFile.fileName with
                | some additionalImport =>
                  Statement.importDeclStmt additionalImport :: lazyStatements
                | none => lazyStatements
              match (match clause.namedBindings with
                     | some (.namedImports elements) => some elements.length
                     | some (.namespaceImport _) => none
                     | none => some 0) with
              | none => none
              | some namedBindingCount =>
                let importedNames :=
                  (match clause.name with
                   | some n => if componentNames.contains n then 1 else 0
                   | none => 0) + namedBindingCount
                if importedNames == componentNames.length then
                  some additionalStatements
                else if !options.onlyRewriteIfImportCanBeRemoved then
                  match (match clause.namedBindings with
                         | some nb => (removeImportNames nb componentNames).map some
                         | none => some none) with
                  | none => none
                  | some filteredBindings =>
                    some (additionalStatements ++
                      [Statement.importDeclStmt
                        ⟨some ⟨defaultName, filteredBindings⟩, d.moduleSpecifier⟩])
                else
                  some [Statement.importDeclStmt d]
          else some [Statement.importDeclStmt d]
      else some [Statement.importDeclStmt d]
    | none => some [Statement.importDeclStmt d]
  | _ => some [node]

/-- The import declarations among a file's top-level statements
(src/index.ts:64). -/
def importsOf (sourceFile : SourceFile) : List ImportDeclaration :=
  sourceFile.statements.filterMap (fun s =>
    match s with
    | .importDeclStmt d => some d
    | _ => none)

/-- Whether some import's module specifier text is exactly `react`
(src/index.ts:65). -/
def hasReactImport (sourceFile : SourceFile) : Bool :=
  (importsOf sourceFile).any (fun d => d.moduleSpecifier == "react")

/-- The source's leading-character test `text[0] === text[0].toUpperCase()`
(src/index.ts:73,77): the first character equals its own uppercased form.
This also accepts caseless characters such as an underscore or a digit. -/
def firstCharMatchesUpper (name : String) : Bool :=
  match name.toList with
  | [] => false
  | c :: _ => c == c.toUpper

/-- The candidate pre-filter (src/index.ts:69-79): the import has a clause
binding a default name that passes the leading-character test, or
named imports one of whose local names passes it. -/
def isPotentialComponentImport (i : ImportDeclaration) : Bool :=
  match i.importClause with
  | some clause =>
    (match clause.name with
     | some n => firstCharMatchesUpper n
     | none => false) ||
    (match clause.namedBindings with
     | some (.namedImports elements) =>
       elements.any (fun e => firstCharMatchesUpper e.name)
     | _ => false)
  | none => false

/-- Whether the character list starts with the pattern. -/
def charsStartWith : List Char → List Char → Bool
  | _, [] => true
  | [], _ :: _ => false
  | c :: cs, p :: ps => c == p && charsStartWith cs ps

/-- Whether the character list contains the pattern as a contiguous run. -/
def charsContain (l pattern : List Char) : Bool :=
  match l with
  | [] => charsStartWith [] pattern
  | _ :: rest => charsStartWith l pattern || charsContain rest pattern

/-- The file-name test `fileName.indexOf(".d.ts") !== -1` (src/index.ts:67,
negated there): whether the file name contains `.d.ts`. -/
def containsDts (fileName : String) : Bool :=
  charsContain fileName.toList ['.', 'd', '.', 't', 's']

/-- Mirrors `visitSourceFile` (src/index.ts:58-91).  The gate: the file is
walked only when it has a `react` import and its file name does not contain
`.d.ts`; then only when some import passes the candidate pre-filter.  A
walked file has each top-level statement mapped through `visitNode` and the
resulting statement lists spliced in place; a file failing the gate is
returned unchanged. -/
def visitSourceFile (sourceFile : SourceFile) (typeChecker : TypeChecker)
    (options : Options) : Option SourceFile :=
  if hasReactImport sourceFile && !containsDts sourceFile.fileName then
    let potentialComponentImports :=
      (importsOf sourceFile).filter isPotentialComponentImport
    if potentialComponentImports.length != 0 then
      match sourceFile.statements.mapM (fun s =>
        visitNode s potentialComponentImports sourceFile typeChecker options) with
      | some rewritten => some { sourceFile with statements := rewritten.flatten }
      | none => none
    else some sourceFile
  else some sourceFile

/-- The locally-bound names an import declaration introduces: the default
name, then the named bindings' local names (or the namespace name). -/
def importBoundNames (d : ImportDeclaration) : List String :=
  match d.importClause with
  | none => []
  | some clause =>
    (match clause.name with | some n => [n] | none => []) ++
    (match clause.namedBindings with
     | some (.namedImports elements) => elements.map (fun e => e.name)
     | some (.namespaceImport n) => [n]
     | none => [])

/-- The locally-bound names a statement introduces. -/
def statementBoundNames : Statement → List String
  | .importDeclStmt d => importBoundNames d
  | .variableStmt _ declarations => declarations.map Prod.fst
  | .otherStmt _ => []

/-- All locally-bound names of a statement list, in order. -/
def boundNamesOf (statements : List Statement) : List String :=
  (statements.map statementBoundNames).flatten

/-- Whether a statement is an import declaration. -/
def isImportStatement : Statement → Bool
  | .importDeclStmt _ => true
  | _ => false

/-- How many top-level import declarations a file has. -/
def importDeclCount (f : SourceFile) : Nat :=
  (importsOf f).length

/-- Whether some import of the file binds a name whose first character is an
uppercase letter (the condition claim C6 states, stricter than the source's
pre-filter). -/
def hasUpperLedImportBinding (f : SourceFile) : Bool :=
  (importsOf f).any (fun d => (importBoundNames d).any (fun n =>
    match n.toList with
    | [] => false
    | c :: _ => c.isUpper))

/-- The resolution chain of `isComponentType` in isolation: the exported
symbol found under `identifier` among the specifier's module exports,
together with its value declaration; `none` on any failed lookup. -/
def resolvedValueDeclaration (identifier : String) (importDecl : ImportDeclaration)
    (typeChecker : TypeChecker) : Option (ExportedSymbol × Decl) :=
  match typeChecker.getExportsOfModule importDecl.moduleSpecifier with
  | none => none
  | some exports =>
    match exports.find? (fun e => e.name == identifier) with
    | none => none
    | some exportedSymbol =>
      match exportedSymbol.valueDeclaration with
      | none => none
      | some valueDecl => some (exportedSymbol, valueDecl)

/-- The spec's class rule: the value declaration is a class declaration whose
immediate extends clause holds a type that is a member access of the
framework's base-component name (`Component`) on the framework root
identifier (`React`). -/
def classRuleSpec (valueDecl : Decl) : Bool :=
  match valueDecl with
  | .classDeclaration (some heritageClauses) =>
    match heritageClauses.find? (fun h => h.token == .extendsKeyword) with
    | some baseClass =>
      baseClass.types.any (fun t =>
        match t with
        | .memberAccess obj member => member == "Component" && obj == "React"
        | .otherType _ => false)
    | none => false
  | _ => false

/-- The spec's function rule, parametrized by the unwrapping that reaches the
function value: the value declaration reduces to a function value with
exactly one or two parameters, and the first call signature of the symbol's
type returns a type whose symbol is named `Element` inside a parent symbol
named `JSX`. -/
def functionRuleWith (valueOf : Decl → Option FunctionValue) (valueDecl : Decl)
    (exportedSymbol : ExportedSymbol) : Bool :=
  match valueOf valueDecl with
  | none => false
  | some func =>
    match exportedSymbol.callSignatures with
    | [] => false
    | callSignature :: _ =>
      match callSignature.returnTypeSymbol with
      | none => false
      | some returnType =>
        (func.paramCount == 1 || func.paramCount == 2) &&
        returnType.escapedName == "Element" &&
        (match returnType.parent with
         | some parentName => parentName == "JSX"
         | none => false)

/-- The unwrapping claim C3 words verbatim: a function declaration, a
function expression or arrow function unwrapped from a default-export
assignment, or one unwrapped from a single-declaration variable statement
(a lone variable declaration counts as one).  Written from the claim's
words for comparison with the source's `getFunction`, which instead takes
the first declarator of a variable statement of any length. -/
def claimFunctionValue : Decl → Option FunctionValue
  | .functionDeclaration p => some ⟨p⟩
  | .exportAssignment e =>
    match e with
    | .functionExpression p => some ⟨p⟩
    | .arrowFunction p => some ⟨p⟩
    | .otherExpr _ => none
  | .variableStatement [declarator] => initializerFunction declarator
  | .variableDeclaration declarator => initializerFunction declarator
  | _ => none

/-- Claim C3's characterization of the classifier, exactly as the claim
states it: the name resolves to exactly one value declaration satisfying the
class rule or the claim's function rule (with its single-declaration
variable-statement unwrapping). -/
def isComponentClaimC3 (identifier : String) (importDecl : ImportDeclaration)
    (typeChecker : TypeChecker) : Bool :=
  match resolvedValueDeclaration identifier importDecl typeChecker with
  | some (exportedSymbol, valueDecl) =>
    classRuleSpec valueDecl || functionRuleWith claimFunctionValue valueDecl exportedSymbol
  | none => false

/-- The claim's notion of oracle resolution failure for one exported name:
the module specifier has no symbol, the name is not among the module's
exports, or the resolved symbol has no value declaration. -/
def resolutionFails (typeChecker : TypeChecker) (moduleSpecifier : String)
    (identifier : String) : Prop :=
  typeChecker.getExportsOfModule moduleSpecifier = none ∨
  (∃ exports, typeChecker.getExportsOfModule moduleSpecifier = some exports ∧
    exports.find? (fun e => e.name == identifier) = none) ∨
  (∃ exports exportedSymbol,
    typeChecker.getExportsOfModule moduleSpecifier = some exports ∧
    exports.find? (fun e => e.name == identifier) = some exportedSymbol ∧
    exportedSymbol.valueDeclaration = none)

/-! Concrete instances used by the counterexamples, bug-exhibiting theorems
and witnesses.  Each `TypeChecker` is a small oracle table. -/

/-- The statement `import D, { A } from "./c1"`. -/
def c1Import : ImportDeclaration :=
  ⟨some ⟨some "D", some (.namedImports [⟨none, "A"⟩])⟩, "./c1"⟩

/-- An oracle under which `./c1` exports `A` as a one-parameter function
returning `JSX.Element` (a component) and has no `default` export. -/
def c1Checker : TypeChecker :=
  ⟨fun spec =>
    if spec == "./c1" then
      some [⟨"A", some (.functionDeclaration 1), [⟨some ⟨"Element", some "JSX"⟩⟩]⟩]
    else if spec == "react" then some []
    else none⟩

/-- A module importing `react` for side effects and then `D, { A }`. -/
def c1File : SourceFile :=
  ⟨"file1.tsx",
    [.importDeclStmt ⟨none, "react"⟩, .importDeclStmt c1Import, .otherStmt 0]⟩

/-- The statement `import { Foo as Bar, baz } from "./c2"`. -/
def c2Import : ImportDeclaration :=
  ⟨some ⟨none, some (.namedImports [⟨some "Foo", "Bar"⟩, ⟨none, "baz"⟩])⟩, "./c2"⟩

/-- An oracle under which `./c2` exports `Foo` as a component and `baz` as a
non-component value. -/
def c2Checker : TypeChecker :=
  ⟨fun spec =>
    if spec == "./c2" then
      some [⟨"Foo", some (.functionDeclaration 1), [⟨some ⟨"Element", some "JSX"⟩⟩]⟩,
            ⟨"baz", some (.otherDecl 0), []⟩]
    else none⟩

/-- A module importing `react` for side effects and then `{ Foo as Bar, baz }`. -/
def c2File : SourceFile :=
  ⟨"file2.tsx", [.importDeclStmt ⟨none, "react"⟩, .importDeclStmt c2Import]⟩

/-- The lazy declaration the rewrite emits for `Bar`:
`const Bar = React.lazy(() => import("./c2").then(m => ({ default: m.Foo })))`. -/
def c2LazyStmt : Statement :=
  .variableStmt true [("Bar",
    .call (.propertyAccess (.identifier "React") "lazy")
      [.arrowFunction []
        (.call (.propertyAccess (importCallOf "./c2") "then")
          [.arrowFunction ["m"]
            (.paren (.objectLiteral
              [("default", .propertyAccess (.identifier "m") "Foo")]))])])]

/-- The residual import the rewrite emits next to `c2LazyStmt`: it still
holds `Foo as Bar` (classified) besides `baz`. -/
def c2Residual : ImportDeclaration :=
  ⟨some ⟨none, some (.namedImports [⟨some "Foo", "Bar"⟩, ⟨none, "baz"⟩])⟩, "./c2"⟩

/-- The statement `import { F } from "./c3"`. -/
def c3Import : ImportDeclaration :=
  ⟨some ⟨none, some (.namedImports [⟨none, "F"⟩])⟩, "./c3"⟩

/-- An oracle under which the value declaration of `F` is a variable
statement with two declarators, the first an arrow function of one
parameter, and the symbol's type has a call signature returning
`JSX.Element`. -/
def c3Checker : TypeChecker :=
  ⟨fun spec =>
    if spec == "./c3" then
      some [⟨"F", some (.variableStatement [⟨some (.arrowFunction 1)⟩, ⟨none⟩]),
             [⟨some ⟨"Element", some "JSX"⟩⟩]⟩]
    else none⟩

/-- Options with the bail-out switch `onlyRewriteIfImportCanBeRemoved` set. -/
def c4Options : Options :=
  { defaultOptions with onlyRewriteIfImportCanBeRemoved := true }

/-- The statement `import D, { A } from "./c4"`. -/
def c4Import : ImportDeclaration :=
  ⟨some ⟨some "D", some (.namedImports [⟨none, "A"⟩])⟩, "./c4"⟩

/-- An oracle under which `./c4` exports `A` as a component and has no
`default` export. -/
def c4Checker : TypeChecker :=
  ⟨fun spec =>
    if spec == "./c4" then
      some [⟨"A", some (.functionDeclaration 1), [⟨some ⟨"Element", some "JSX"⟩⟩]⟩]
    else none⟩

/-- A module importing `react` for side effects and then `D, { A }`. -/
def c4File : SourceFile :=
  ⟨"file4.tsx", [.importDeclStmt ⟨none, "react"⟩, .importDeclStmt c4Import]⟩

/-- The lazy declaration the rewrite emits for `A` under `c4Checker`:
`const A = React.lazy(() => import("./c4").then(m => ({ default: m.A })))`. -/
def c4LazyStmt : Statement :=
  .variableStmt true [("A",
    .call (.propertyAccess (.identifier "React") "lazy")
      [.arrowFunction []
        (.call (.propertyAccess (importCallOf "./c4") "then")
          [.arrowFunction ["m"]
            (.paren (.objectLiteral
              [("default", .propertyAccess (.identifier "m") "A")]))])])]

/-- The statement `import _Foo from "./c6"`: its only binding starts with an
underscore, which has no uppercase form. -/
def c6Underscore : ImportDeclaration :=
  ⟨some ⟨some "_Foo", none⟩, "./c6"⟩

/-- A module importing `react` for side effects and then `_Foo`. -/
def c6File : SourceFile :=
  ⟨"file6.tsx", [.importDeclStmt ⟨none, "react"⟩, .importDeclStmt c6Underscore]⟩

/-- An oracle under which the `default` export of `./c6` is a component. -/
def c6Checker : TypeChecker :=
  ⟨fun spec =>
    if spec == "./c6" then
      some [⟨"default", some (.functionDeclaration 1), [⟨some ⟨"Element", some "JSX"⟩⟩]⟩]
    else none⟩

/-- The lazy declaration the rewrite emits for `_Foo`:
`const _Foo = React.lazy(() => import("./c6"))`. -/
def c6LazyStmt : Statement :=
  .variableStmt true [("_Foo",
    .call (.propertyAccess (.identifier "React") "lazy")
      [.arrowFunction [] (importCallOf "./c6")])]

/-- A module with no `react` import at all. -/
def c6WitnessFile : SourceFile :=
  ⟨"w6.tsx", [.importDeclStmt ⟨some ⟨some "Foo", none⟩, "./x"⟩, .otherStmt 0]⟩

/-- Options whose `shouldRewrite` hook always declines. -/
def c7Options : Options :=
  { defaultOptions with shouldRewrite := fun _ _ => false }

/-- An oracle that resolves no module at all. -/
def c8Checker : TypeChecker := ⟨fun _ => none⟩

/-- The classifier's verdict as a function of the module specifier alone:
`isComponentType` reads nothing else of the import declaration. -/
def componentVerdict (typeChecker : TypeChecker) (moduleSpecifier : String)
    (identifier : String) : Bool :=
  isComponentType identifier ⟨none, moduleSpecifier⟩ typeChecker

/-- The classifier factored through its resolution chain: `isComponentType`
equals the class-or-function verdict on the resolved value declaration, and
false when resolution fails. -/
theorem isComponentType_characterization (identifier : String)
    (importDecl : ImportDeclaration) (typeChecker : TypeChecker) :
    isComponentType identifier importDecl typeChecker =
      (match resolvedValueDeclaration identifier importDecl typeChecker with
       | some (exportedSymbol, valueDecl) =>
         classRuleSpec valueDecl || functionRuleWith getFunction valueDecl exportedSymbol
       | none => false) := by
  unfold isComponentType resolvedValueDeclaration
  repeat' split
  all_goals simp_all [classRuleSpec, functionRuleWith, getFunction, initializerFunction, -List.find?_eq_none]
  all_goals casesm* _ ∧ _
  all_goals subst_vars
  all_goals simp_all [classRuleSpec, functionRuleWith, getFunction, initializerFunction, -List.find?_eq_none]

theorem isComponentType_only_specifier (identifier : String)
    (d₁ d₂ : ImportDeclaration) (typeChecker : TypeChecker)
    (h : d₁.moduleSpecifier = d₂.moduleSpecifier) :
    isComponentType identifier d₁ typeChecker = isComponentType identifier d₂ typeChecker := by
  unfold isComponentType
  rw [h]

theorem resolvedValueDeclaration_eq_none (identifier : String)
    (d : ImportDeclaration) (typeChecker : TypeChecker)
    (h : resolutionFails typeChecker d.moduleSpecifier identifier) :
    resolvedValueDeclaration identifier d typeChecker = none := by
  unfold resolvedValueDeclaration
  rcases h with h | ⟨exports, h1, h2⟩ | ⟨exports, exportedSymbol, h1, h2, h3⟩
  · rw [h]
  · simp [h1, h2]
  · simp [h1, h2, h3]

/-- Amended claim C3: the classifier returns true exactly when the name
resolves (module symbol, exported symbol, value declaration) and the value
declaration satisfies the class rule or the function rule, where the
function rule's unwrapping of a variable statement takes its first
declarator (of a declaration list of any length). -/
theorem c3_classifier_characterization (identifier : String)
    (importDecl : ImportDeclaration) (typeChecker : TypeChecker) :
    isComponentType identifier importDecl typeChecker = true ↔
      ∃ exportedSymbol valueDecl,
        resolvedValueDeclaration identifier importDecl typeChecker =
          some (exportedSymbol, valueDecl) ∧
        (classRuleSpec valueDecl = true ∨
         functionRuleWith getFunction valueDecl exportedSymbol = true) := by
  rw [isComponentType_characterization]
  cases hres : resolvedValueDeclaration identifier importDecl typeChecker with
  | none => simp
  | some p =>
    obtain ⟨exportedSymbol, valueDecl⟩ := p
    simp only [Bool.or_eq_true, Option.some.injEq, Prod.mk.injEq]
    constructor
    · intro hx
      exact ⟨exportedSymbol, valueDecl, ⟨rfl, rfl⟩, hx⟩
    · rintro ⟨s, v, ⟨rfl, rfl⟩, hx⟩
      exact hx

theorem c3_classifier_characterization_witness :
    isComponentType "A" c1Import c1Checker = true :=
  (c3_classifier_characterization "A" c1Import c1Checker).mpr
    ⟨⟨"A", some (.functionDeclaration 1), [⟨some ⟨"Element", some "JSX"⟩⟩]⟩,
     .functionDeclaration 1, rfl, Or.inr rfl⟩

theorem c3_single_declarator_counterexample :
    isComponentType "F" c3Import c3Checker = true ∧
    isComponentClaimC3 "F" c3Import c3Checker = false :=
  ⟨rfl, rfl⟩

theorem c10_first_declarator_only (declarator : VariableDeclarator)
    (rest : List VariableDeclarator) :
    getFunction (.variableStatement (declarator :: rest)) =
      getFunction (.variableStatement [declarator]) ∧
    getFunction (.variableStatement (declarator :: rest)) =
      initializerFunction declarator :=
  ⟨rfl, rfl⟩

theorem c9_prefilter_accepts_caseless (ch : Char) (rest : List Char)
    (namedBindings : Option NamedBindings) (propertyName : Option String)
    (moduleSpecifier : String) (h : ch.toUpper = ch) :
    isPotentialComponentImport
      ⟨some ⟨some (String.mk (ch :: rest)), namedBindings⟩, moduleSpecifier⟩ = true ∧
    isPotentialComponentImport
      ⟨some ⟨none, some (.namedImports [⟨propertyName, String.mk (ch :: rest)⟩])⟩,
        moduleSpecifier⟩ = true := by
  have hfc : firstCharMatchesUpper (String.mk (ch :: rest)) = true := by
    simp [firstCharMatchesUpper, String.toList, h]
  constructor
  · simp [isPotentialComponentImport, hfc]
  · simp [isPotentialComponentImport, hfc]

theorem c9_prefilter_witness :
    isPotentialComponentImport
      ⟨some ⟨some (String.mk ['_', 'F', 'o', 'o']), none⟩, "./c9"⟩ = true ∧
    isPotentialComponentImport
      ⟨some ⟨none, some (.namedImports [⟨none, String.mk ['$', 'x']⟩])⟩, "./c9"⟩ = true ∧
    ('_').isUpper = false ∧ ('$').isUpper = false :=
  ⟨(c9_prefilter_accepts_caseless '_' ['F', 'o', 'o'] none none "./c9" (by decide)).1,
   (c9_prefilter_accepts_caseless '$' ['x'] none none "./c9" (by decide)).2,
   by decide, by decide⟩

theorem c7_should_rewrite_short_circuits (d : ImportDeclaration)
    (potentialComponentImports : List ImportDeclaration) (sourceFile : SourceFile)
    (typeChecker : TypeChecker) (options : Options)
    (h : options.shouldRewrite d.moduleSpecifier sourceFile.fileName = false) :
    visitNode (.importDeclStmt d) potentialComponentImports sourceFile typeChecker options =
      some [Statement.importDeclStmt d] := by
  cases hc : d.importClause with
  | none => simp [visitNode, hc]
  | some clause =>
    cases hm : potentialComponentImports.contains d <;> simp [visitNode, hc, hm, h]

theorem c7_should_rewrite_witness :
    visitNode (.importDeclStmt c1Import) [c1Import] c1File c1Checker c7Options =
      some [Statement.importDeclStmt c1Import] :=
  c7_should_rewrite_short_circuits c1Import [c1Import] c1File c1Checker c7Options rfl

theorem c5_lazy_binding_shape (options : Options) (moduleSpecifier : String)
    (defaultImportName : Option String) (namedBindings : Option NamedBindings)
    (elements : List ImportSpecifier) (element : ImportSpecifier) (c : String) :
    (defaultImportName = some c →
      lazyStatement options moduleSpecifier defaultImportName namedBindings c =
        some (.variableStmt true [(c,
          .call options.createComponentWrapperExpression
            [.arrowFunction [] (importCallOf moduleSpecifier)])])) ∧
    (defaultImportName ≠ some c →
      namedBindings = some (.namedImports elements) →
      elements.find? (fun e => e.name == c) = some element →
      lazyStatement options moduleSpecifier defaultImportName namedBindings c =
        some (.variableStmt true [(c,
          .call options.createComponentWrapperExpression
            [.arrowFunction []
              (.call (.propertyAccess (importCallOf moduleSpecifier) "then")
                [.arrowFunction ["m"]
                  (.paren (.objectLiteral
                    [("default", .propertyAccess (.identifier "m")
                      (element.propertyName.getD element.name))]))])])])) := by
  constructor
  · intro h
    subst h
    simp [lazyStatement]
  · intro h1 h2 h3
    subst h2
    simp [lazyStatement, h1, h3]

theorem c5_lazy_binding_witness :
    lazyStatement defaultOptions "./m" (some "D") none "D" =
      some (.variableStmt true [("D",
        .call (.propertyAccess (.identifier "React") "lazy")
          [.arrowFunction [] (importCallOf "./m")])]) ∧
    lazyStatement defaultOptions "./m" none
        (some (.namedImports [⟨some "Foo", "Bar"⟩])) "Bar" =
      some (.variableStmt true [("Bar",
        .call (.propertyAccess (.identifier "React") "lazy")
          [.arrowFunction []
            (.call (.propertyAccess (importCallOf "./m") "then")
              [.arrowFunction ["m"]
                (.paren (.objectLiteral
                  [("default", .propertyAccess (.identifier "m") "Foo")]))])])]) :=
  ⟨(c5_lazy_binding_shape defaultOptions "./m" (some "D") none [] ⟨none, "D"⟩ "D").1 rfl,
   (c5_lazy_binding_shape defaultOptions "./m" none
      (some (.namedImports [⟨some "Foo", "Bar"⟩])) [⟨some "Foo", "Bar"⟩]
      ⟨some "Foo", "Bar"⟩ "Bar").2 (by decide) rfl rfl⟩

/-- Amended claim C6: a module with no `react` import, or whose file name
contains `.d.ts`, or none of whose imports passes the candidate pre-filter
(no binding whose first character equals its own uppercased form) is
returned unchanged, whatever the oracle and options — so the classifier is
never consulted and re-running the transform is a no-op fixed point. -/
theorem c6_gate_noop (sourceFile : SourceFile) (typeChecker : TypeChecker)
    (options : Options)
    (h : hasReactImport sourceFile = false ∨
         containsDts sourceFile.fileName = true ∨
         (importsOf sourceFile).filter isPotentialComponentImport = []) :
    visitSourceFile sourceFile typeChecker options = some sourceFile := by
  unfold visitSourceFile
  rcases h with h | h | h
  · simp [h]
  · simp [h]
  · cases hg : (hasReactImport sourceFile && !containsDts sourceFile.fileName) <;>
      simp [hg, h]

theorem c6_gate_noop_witness :
    visitSourceFile c6WitnessFile c6Checker defaultOptions = some c6WitnessFile :=
  c6_gate_noop c6WitnessFile c6Checker defaultOptions (Or.inl (by decide))

theorem c6_gate_counterexample :
    hasUpperLedImportBinding c6File = false ∧
    hasReactImport c6File = true ∧
    containsDts c6File.fileName = false ∧
    visitSourceFile c6File c6Checker defaultOptions =
      some ⟨"file6.tsx", [.importDeclStmt ⟨none, "react"⟩, c6LazyStmt]⟩ ∧
    visitSourceFile c6File c6Checker defaultOptions ≠ some c6File := by
  refine ⟨rfl, rfl, rfl, rfl, ?_⟩
  intro h
  have h2 := congrArg (Option.map importDeclCount) h
  exact absurd h2 (by decide)

theorem isComponentType_eq_componentVerdict (identifier : String)
    (d : ImportDeclaration) (typeChecker : TypeChecker) :
    isComponentType identifier d typeChecker =
      componentVerdict typeChecker d.moduleSpecifier identifier :=
  isComponentType_only_specifier identifier d ⟨none, d.moduleSpecifier⟩ typeChecker rfl

theorem getImportedReactComponents_eq (typeChecker : TypeChecker)
    (moduleSpecifier : String) (defaultName : Option String)
    (elements : List ImportSpecifier) (options : Options) :
    getImportedReactComponents
        ⟨some ⟨defaultName, some (.namedImports elements)⟩, moduleSpecifier⟩
        typeChecker options =
      (match defaultName with
       | some n =>
         if componentVerdict typeChecker moduleSpecifier "default" then [n] else []
       | none => []) ++
      (if !options.onlyRewriteDefaultExports then
         elements.filterMap (fun element =>
           if componentVerdict typeChecker moduleSpecifier
               (element.propertyName.getD element.name)
           then some element.name else none)
       else []) := rfl

theorem c8_resolution_failure_fail_closed (typeChecker : TypeChecker)
    (moduleSpecifier : String) (defaultName : Option String)
    (pre post : List ImportSpecifier) (element : ImportSpecifier)
    (options : Options)
    (h : resolutionFails typeChecker moduleSpecifier
      (element.propertyName.getD element.name)) :
    isComponentType (element.propertyName.getD element.name)
      ⟨some ⟨defaultName, some (.namedImports (pre ++ element :: post))⟩,
        moduleSpecifier⟩ typeChecker = false ∧
    getImportedReactComponents
      ⟨some ⟨defaultName, some (.namedImports (pre ++ element :: post))⟩,
        moduleSpecifier⟩ typeChecker options =
    getImportedReactComponents
      ⟨some ⟨defaultName, some (.namedImports (pre ++ post))⟩,
        moduleSpecifier⟩ typeChecker options := by
  have hfail : componentVerdict typeChecker moduleSpecifier
      (element.propertyName.getD element.name) = false := by
    show isComponentType _ _ _ = false
    rw [isComponentType_characterization,
      resolvedValueDeclaration_eq_none _ ⟨none, moduleSpecifier⟩ typeChecker h]
  constructor
  · rw [isComponentType_eq_componentVerdict]
    exact hfail
  · rw [getImportedReactComponents_eq, getImportedReactComponents_eq]
    congr 1
    rw [List.filterMap_append, List.filterMap_append, List.filterMap_cons, hfail]
    simp

theorem c8_resolution_failure_witness :
    isComponentType "X"
      ⟨some ⟨none, some (.namedImports [⟨none, "X"⟩])⟩, "./gone"⟩ c8Checker = false ∧
    getImportedReactComponents
      ⟨some ⟨none, some (.namedImports [⟨none, "X"⟩])⟩, "./gone"⟩ c8Checker defaultOptions =
    getImportedReactComponents
      ⟨some ⟨none, some (.namedImports [])⟩, "./gone"⟩ c8Checker defaultOptions :=
  c8_resolution_failure_fail_closed c8Checker "./gone" none [] [] ⟨none, "X"⟩
    defaultOptions (Or.inl rfl)

theorem c1_default_binding_dropped :
    (visitSourceFile c1File c1Checker defaultOptions).map
      (fun f => boundNamesOf f.statements) = some ["A"] ∧
    boundNamesOf c1File.statements = ["D", "A"] ∧
    ¬ List.Perm ["A"] ["D", "A"] :=
  ⟨rfl, rfl, by decide⟩

theorem c2_residual_keeps_classified_binding :
    visitNode (.importDeclStmt c2Import) [c2Import] c2File c2Checker defaultOptions =
      some [c2LazyStmt, .importDeclStmt c2Residual] ∧
    getImportedReactComponents c2Import c2Checker defaultOptions = ["Bar"] ∧
    importBoundNames c2Residual = ["Bar", "baz"] ∧
    ¬ List.Perm (boundNamesOf [c2LazyStmt, .importDeclStmt c2Residual])
      (importBoundNames c2Import) :=
  ⟨rfl, rfl, rfl, by decide⟩

theorem c4_bailout_flag_bypassed :
    c4Options.onlyRewriteIfImportCanBeRemoved = true ∧
    getImportedReactComponents c4Import c4Checker c4Options = ["A"] ∧
    importBoundNames c4Import = ["D", "A"] ∧
    visitNode (.importDeclStmt c4Import) [c4Import] c4File c4Checker c4Options =
      some [c4LazyStmt] ∧
    visitNode (.importDeclStmt c4Import) [c4Import] c4File c4Checker c4Options ≠
      some [Statement.importDeclStmt c4Import] := by
  refine ⟨rfl, rfl, rfl, rfl, ?_⟩
  intro h
  have h2 := congrArg (Option.map (fun l => l.map isImportStatement)) h
  exact absurd h2 (by decide)

end LazyImport
